import Mathlib

/-!
Shallow embedding of `src/main.rs` of the shamir-secret-sharing plotting
program.  The program renders six fixed polynomial charts through the
`plotters` crate.  Numeric values (`f32` in the source) are idealized as
rationals `ℚ`; the drawing calls are embedded as a list of drawing events
plus a legend registry, mirroring the call order of `create_chart`.
-/

namespace ShamirPlots

/-- Named colors used by `main.rs` (`TRANSPARENT`, `BLACK`, `BLUE`, `RED`,
`GREEN`, `WHITE` from the plotters prelude). -/
inductive Color where
  | transparent
  | black
  | blue
  | red
  | green
  | white
  deriving DecidableEq, Repr

/-- A legend entry registered on a series annotation through
`.label(...)` followed by `.legend(...)`: the label text and the color of
the legend glyph. -/
structure LegendEntry where
  label : String
  glyphColor : Color
  deriving DecidableEq, Repr

/-- One drawing call issued on the chart, in the order of `create_chart`:
the background fill, the drawn axis mesh configuration, a `LineSeries`, or
a `PointSeries` (size, color, filled circle, and the pixel offset of the
coordinate text annotation). -/
inductive DrawEvent where
  | fill (color : Color)
  | mesh (xLabels yLabels : Nat) (meshDisabled : Bool)
      (xFmtDecimals yFmtDecimals : Nat)
  | lineSeries (points : List (ℚ × ℚ)) (color : Color)
  | pointSeries (points : List (ℚ × ℚ)) (size : Nat) (color : Color)
      (filledCircle : Bool) (textOffset : ℤ × ℤ)
  deriving DecidableEq, Repr

/-- The argument record of `create_chart` in `main.rs`. -/
structure RenderRequest where
  filename : String
  title : String
  dimensions : Nat × Nat
  x_range : ℚ × ℚ
  y_range : ℚ × ℚ
  polynomial : ℚ → ℚ
  polynomial_str : String
  shares_x : List ℚ
  secret : Bool

/-- Number of values produced by the plotters iterator
`x_range.step(step).values()` used by `draw_polynomial`: starting at
`start` and repeatedly adding `step`, values are produced while they are
still strictly below `stop` (the spec: values continue while still within
`x_range`, a half-open range). -/
def linspaceCount (start stop step : ℚ) : Nat :=
  if start < stop ∧ 0 < step then (⌈(stop - start) / step⌉).toNat else 0

/-- The values produced by `x_range.step(step).values()`:
`start, start + step, start + 2 * step, ...` while strictly below `stop`. -/
def linspaceValues (start stop step : ℚ) : List ℚ :=
  (List.range (linspaceCount start stop step)).map
    (fun (k : ℕ) => start + (k : ℚ) * step)

/-- Embedding of `draw_polynomial`: the curve as one blue `LineSeries`
sampling the polynomial at steps of `1e-3` across `x_range`, together with
the legend entry it registers under `polynomial_str` (blue glyph). -/
def draw_polynomial (polynomial : ℚ → ℚ) (polynomial_str : String)
    (x_range : ℚ × ℚ) : List DrawEvent × List LegendEntry :=
  ([DrawEvent.lineSeries
      ((linspaceValues x_range.1 x_range.2 (1 / 1000)).map
        (fun x => (x, polynomial x))) Color.blue],
   [⟨polynomial_str, Color.blue⟩])

/-- Embedding of `draw_shares`: each x in `shares_x` becomes the point
`(x, polynomial x)`, drawn as one red `PointSeries` of size 5 with filled
circles and text offset `(1, 10)`; registers the legend entry "Shares"
(red glyph).  The `.label("Shares")` call is unconditional in the source,
it does not depend on `shares_x` being non-empty. -/
def draw_shares (polynomial : ℚ → ℚ) (shares_x : List ℚ) :
    List DrawEvent × List LegendEntry :=
  ([DrawEvent.pointSeries (shares_x.map (fun x => (x, polynomial x))) 5
      Color.red true (1, 10)],
   [⟨"Shares", Color.red⟩])

/-- Embedding of `draw_secret`: the single point `(0, polynomial 0)` drawn
as a green `PointSeries` of size 5 with a filled circle and text offset
`(1, 10)`; registers the legend entry "Secret" (green glyph). -/
def draw_secret (polynomial : ℚ → ℚ) : List DrawEvent × List LegendEntry :=
  ([DrawEvent.pointSeries [(0, polynomial 0)] 5 Color.green true (1, 10)],
   [⟨"Secret", Color.green⟩])

/-- Position of the series-label (legend) box. -/
inductive SeriesLabelPosition where
  | lowerRight
  deriving DecidableEq, Repr

/-- The content of the finished chart document: the builder configuration
(caption, margins, label areas), the ordered drawing events, the legend
registry in registration order, and the legend-box style. -/
structure ChartOutput where
  dimensions : Nat × Nat
  caption : String
  captionFont : String × Nat
  margin : Nat
  x_label_area_size : Nat
  y_label_area_size : Nat
  events : List DrawEvent
  series_labels : List LegendEntry
  legendPosition : SeriesLabelPosition
  legendBorder : Color
  legendBackground : Color × ℚ
  legend_area_size : Nat

/-- The chart content produced by the body of `create_chart` once the
chart context exists, in source order: transparent background fill, axis
mesh (x label count `shares_x.len() + secret as usize`, 5 y labels, mesh
disabled, both tick formatters printing 0 decimal places), black vertical
line from `(0, y_range.start)` to `(0, y_range.end)`, then
`draw_polynomial`, `draw_shares`, and `draw_secret` only if `secret`. -/
def chartOutput (r : RenderRequest) : ChartOutput :=
  let poly := draw_polynomial r.polynomial r.polynomial_str r.x_range
  let shares := draw_shares r.polynomial r.shares_x
  let sec := if r.secret then draw_secret r.polynomial else ([], [])
  { dimensions := r.dimensions
    caption := r.title
    captionFont := ("sans-serif", 32)
    margin := 5
    x_label_area_size := 35
    y_label_area_size := 40
    events :=
      [DrawEvent.fill Color.transparent,
       DrawEvent.mesh (r.shares_x.length + (if r.secret then 1 else 0)) 5
         true 0 0,
       DrawEvent.lineSeries [(0, r.y_range.1), (0, r.y_range.2)] Color.black]
      ++ poly.1 ++ shares.1 ++ sec.1
    series_labels := poly.2 ++ shares.2 ++ sec.2
    legendPosition := SeriesLabelPosition.lowerRight
    legendBorder := Color.black
    legendBackground := (Color.white, 4 / 5)
    legend_area_size := 10 }

/-- The single error type of the embedded renderer. -/
inductive ChartError where
  | degenerateRange
  deriving DecidableEq, Repr

/-- Modelled from the spec: the behavior of plotters'
`build_cartesian_2d` (its implementation is not part of this repository).
Per the spec, coordinate-system construction fails with a construction
error on a degenerate range (start == end) instead of silently rendering a
zero-width chart. -/
def build_cartesian_2d (x_range y_range : ℚ × ℚ) : Except ChartError Unit :=
  if x_range.1 = x_range.2 ∨ y_range.1 = y_range.2 then
    Except.error ChartError.degenerateRange
  else Except.ok ()

/-- Embedding of `create_chart`: build the cartesian coordinate system
(the modelled failure point) and, on success, produce the chart content. -/
def create_chart (r : RenderRequest) : Except ChartError ChartOutput :=
  match build_cartesian_2d r.x_range r.y_range with
  | Except.error e => Except.error e
  | Except.ok _ => Except.ok (chartOutput r)

/-- The legend entries actually drawn by
`configure_series_labels().draw()`: plotters skips series annotations
whose label is empty (every labeled series here also sets a legend glyph,
so only the label filter matters). -/
def drawnLegendEntries (o : ChartOutput) : List LegendEntry :=
  o.series_labels.filter (fun e => e.label != "")

/-- All points of `PointSeries` events of a given color. -/
def pointsWithColor (c : Color) (o : ChartOutput) : List (ℚ × ℚ) :=
  (o.events.filterMap (fun ev =>
    match ev with
    | DrawEvent.pointSeries pts _ c2 _ _ => if c2 = c then some pts else none
    | _ => none)).flatten

/-- All point lists of blue `LineSeries` events (the curve). -/
def blueLinePointLists (o : ChartOutput) : List (List (ℚ × ℚ)) :=
  o.events.filterMap (fun ev =>
    match ev with
    | DrawEvent.lineSeries pts Color.blue => some pts
    | _ => none)

/-- The points of the curve: the blue `LineSeries` points. -/
def curvePointsDrawn (o : ChartOutput) : List (ℚ × ℚ) :=
  (blueLinePointLists o).flatten

/-- The mesh configurations drawn, as tuples
(x label count, y label count, mesh disabled, x decimals, y decimals). -/
def meshConfigs (o : ChartOutput) : List (Nat × Nat × Bool × Nat × Nat) :=
  o.events.filterMap (fun ev =>
    match ev with
    | DrawEvent.mesh xl yl dis xf yf => some (xl, yl, dis, xf, yf)
    | _ => none)

/-- `DIMENSIONS` from `main.rs`. -/
def DIMENSIONS : Nat × Nat := (640, 480)

/-- The render request issued by `line()`. -/
def lineRequest : RenderRequest :=
  { filename := "plots/line.svg"
    title := "Two Points are Uniquely Determined by a Line"
    dimensions := DIMENSIONS
    x_range := (2.5, 4.5)
    y_range := (2, 4.5)
    polynomial := id
    polynomial_str := "x"
    shares_x := [3, 4]
    secret := false }

/-- The render request issued by `quadratic()`. -/
def quadraticRequest : RenderRequest :=
  { filename := "plots/quadratic.svg"
    title := "Three Points are Uniquely Determined by a Parabola"
    dimensions := DIMENSIONS
    x_range := (-5.1, 5.1)
    y_range := (-1, 26)
    polynomial := fun x => x ^ 2
    polynomial_str := "x²"
    shares_x := [-4, 1, 4]
    secret := false }

/-- The render request issued by `cubic()`. -/
def cubicRequest : RenderRequest :=
  { filename := "plots/cubic.svg"
    title := "Four Points are Uniquely Determined by a Cubic"
    dimensions := DIMENSIONS
    x_range := (-2.5, 2.5)
    y_range := (-20, 20)
    polynomial := fun x => x ^ 3
    polynomial_str := "x³"
    shares_x := [-2, -1, 1, 2]
    secret := false }

/-- The render request issued by `shamir()`. -/
def shamirRequest : RenderRequest :=
  { filename := "plots/shamir.svg"
    title := "Shamir's Secret Sharing"
    dimensions := DIMENSIONS
    x_range := (-2.1, 2.4)
    y_range := (-30, 20)
    polynomial := fun x => 2 * x ^ 3 - 3 * x ^ 2 + 2 * x + 5
    polynomial_str := "2x³ - 3x² + 2x + 5"
    shares_x := [-2, -1, 1, 2]
    secret := true }

/-- The render request issued by `shamir_alternate_single()`. -/
def shamirAlternateSingleRequest : RenderRequest :=
  { filename := "plots/shamir_alternate_single.svg"
    title := "Shamir's Secret Sharing: Alternate Single Share"
    dimensions := DIMENSIONS
    x_range := (-1.1, 3.4)
    y_range := (-30, 60)
    polynomial := fun x => 2 * x ^ 3 - 3 * x ^ 2 + 2 * x + 5
    polynomial_str := "2x³ - 3x² + 2x + 5"
    shares_x := [-1, 1, 2, 3]
    secret := true }

/-- The render request issued by `shamir_alternate_multiple()`. -/
def shamirAlternateMultipleRequest : RenderRequest :=
  { filename := "plots/shamir_alternate_multiple.svg"
    title := "Shamir's Secret Sharing: Alternate Multiple Shares"
    dimensions := DIMENSIONS
    x_range := (-2.7, 3)
    y_range := (-70, 60)
    polynomial := fun x => 2 * x ^ 3 - 3 * x ^ 2 + 2 * x + 5
    polynomial_str := "2x³ - 3x² + 2x + 5"
    shares_x := [-2.5, -1.5, 1.5, 2.5]
    secret := true }

/-- The six render requests of `main`, in call order. -/
def mainRequests : List RenderRequest :=
  [lineRequest, quadraticRequest, cubicRequest, shamirRequest,
   shamirAlternateSingleRequest, shamirAlternateMultipleRequest]

/-- One row of the configuration table of spec section 6. -/
structure SpecFigureRow where
  x_range : ℚ × ℚ
  y_range : ℚ × ℚ
  f : ℚ → ℚ
  samples : List ℚ
  show_secret : Bool

/-- Modelled from the spec: the section 6 configuration table, row by row
(figures line, quadratic, cubic, shamir, shamir_alt_single,
shamir_alt_multi), used only to compare the hard-coded requests of `main`
against the spec. -/
def specConfigTable : List SpecFigureRow :=
  [{ x_range := (2.5, 4.5), y_range := (2, 4.5), f := fun x => x,
     samples := [3, 4], show_secret := false },
   { x_range := (-5.1, 5.1), y_range := (-1, 26), f := fun x => x ^ 2,
     samples := [-4, 1, 4], show_secret := false },
   { x_range := (-2.5, 2.5), y_range := (-20, 20), f := fun x => x ^ 3,
     samples := [-2, -1, 1, 2], show_secret := false },
   { x_range := (-2.1, 2.4), y_range := (-30, 20),
     f := fun x => 2 * x ^ 3 - 3 * x ^ 2 + 2 * x + 5,
     samples := [-2, -1, 1, 2], show_secret := true },
   { x_range := (-1.1, 3.4), y_range := (-30, 60),
     f := fun x => 2 * x ^ 3 - 3 * x ^ 2 + 2 * x + 5,
     samples := [-1, 1, 2, 3], show_secret := true },
   { x_range := (-2.7, 3), y_range := (-70, 60),
     f := fun x => 2 * x ^ 3 - 3 * x ^ 2 + 2 * x + 5,
     samples := [-2.5, -1.5, 1.5, 2.5], show_secret := true }]

/-- Semantics of a chain of `?`-propagated fallible steps: run the steps
in order, stopping at the first `Except.error` and returning it; return
`Except.ok ()` when every step succeeds. -/
def runSeq {ε : Type} : List (Except ε Unit) → Except ε Unit
  | [] => Except.ok ()
  | Except.error e :: _ => Except.error e
  | Except.ok _ :: rest => runSeq rest

/-- How many steps of a `?`-chain actually execute: every step up to and
including the first failing one, or all of them. -/
def executedSteps {ε : Type} : List (Except ε Unit) → Nat
  | [] => 0
  | Except.error _ :: _ => 1
  | Except.ok _ :: rest => 1 + executedSteps rest

/-- The six figure renders of `main` as a `?`-chain, each step abstracted
by its outcome: `line()?; quadratic()?; cubic()?; shamir()?;
shamir_alternate_single()?; shamir_alternate_multiple()?`. -/
def mainSteps {ε : Type}
    (line quadratic cubic shamir alt_single alt_multiple : Except ε Unit) :
    List (Except ε Unit) :=
  [line, quadratic, cubic, shamir, alt_single, alt_multiple]

/-- The result of `main`: run the six figure renders in order with `?`
propagation. -/
def main_run {ε : Type}
    (line quadratic cubic shamir alt_single alt_multiple : Except ε Unit) :
    Except ε Unit :=
  runSeq (mainSteps line quadratic cubic shamir alt_single alt_multiple)

/-- The `?`-propagated steps inside one `create_chart` call, each step
abstracted by its outcome, in source order: `fill?`, `build_cartesian_2d?`,
mesh `draw()?`, vertical-line `draw_series(..)?`, `draw_polynomial(..)?`,
`draw_shares(..)?`, `draw_secret(..)?` only when `secret`, and the final
`configure_series_labels()...draw()?`. -/
def create_chart_steps {ε : Type}
    (fill build mesh vline poly shares sec legend : Except ε Unit)
    (secret : Bool) : List (Except ε Unit) :=
  [fill, build, mesh, vline, poly, shares]
    ++ (if secret then [sec] else []) ++ [legend]

/-- The result of one `create_chart` call as a `?`-chain of its steps. -/
def create_chart_run {ε : Type}
    (fill build mesh vline poly shares sec legend : Except ε Unit)
    (secret : Bool) : Except ε Unit :=
  runSeq (create_chart_steps fill build mesh vline poly shares sec legend
    secret)

/-- A render request with an empty sample set (not issued by `main`; used
to probe the boundary behavior of the renderer). -/
def emptySharesRequest : RenderRequest :=
  { filename := "plots/empty.svg"
    title := "Empty"
    dimensions := DIMENSIONS
    x_range := (0, 1)
    y_range := (0, 1)
    polynomial := id
    polynomial_str := "x"
    shares_x := []
    secret := false }

/-- A render request with a degenerate x-range (start == end), used to
probe the construction-failure boundary. -/
def degenerateRequest : RenderRequest :=
  { filename := "plots/degenerate.svg"
    title := "Degenerate"
    dimensions := DIMENSIONS
    x_range := (1, 1)
    y_range := (0, 1)
    polynomial := id
    polynomial_str := "x"
    shares_x := [1]
    secret := false }

/-- A copy of `lineRequest` that differs only in its output destination:
all inputs that influence the document content are identical. -/
def lineRequestCopy : RenderRequest :=
  { lineRequest with filename := "plots/line_copy.svg" }

theorem head?_eq_zeroth {α : Type} (l : List α) : l.head? = l[0]? := by
  cases l <;> simp

theorem lt_linspaceCount_iff (start stop step : ℚ) (h : start < stop)
    (hs : 0 < step) (k : ℕ) :
    k < linspaceCount start stop step ↔ (k : ℚ) * step < stop - start := by
  rw [linspaceCount, if_pos ⟨h, hs⟩, Int.lt_toNat, Int.lt_ceil,
    Int.cast_natCast, lt_div_iff₀ hs]

theorem linspaceCount_pos (start stop step : ℚ) (h : start < stop)
    (hs : 0 < step) : 0 < linspaceCount start stop step := by
  rw [lt_linspaceCount_iff start stop step h hs 0]
  simpa using sub_pos.mpr h

theorem linspaceValues_head (start stop step : ℚ) (h : start < stop)
    (hs : 0 < step) : (linspaceValues start stop step).head? = some start := by
  rw [head?_eq_zeroth, linspaceValues, List.getElem?_map,
    List.getElem?_range (linspaceCount_pos start stop step h hs)]
  simp

theorem linspaceValues_chain (start stop step : ℚ) (hs : 0 < step) :
    (linspaceValues start stop step).Chain' (· < ·) := by
  apply List.Pairwise.chain'
  exact (List.pairwise_lt_range _).map _
    (fun a b hab => by
      have : (a : ℚ) < (b : ℚ) := by exact_mod_cast hab
      have := mul_lt_mul_of_pos_right this hs
      linarith)

theorem linspaceValues_mem_bounds (start stop step : ℚ) (h : start < stop)
    (hs : 0 < step) (x : ℚ) (hx : x ∈ linspaceValues start stop step) :
    start ≤ x ∧ x < stop := by
  rw [linspaceValues, List.mem_map] at hx
  obtain ⟨k, hk, rfl⟩ := hx
  rw [List.mem_range] at hk
  have hlt := (lt_linspaceCount_iff start stop step h hs k).mp hk
  have hnn : (0 : ℚ) ≤ (k : ℚ) * step := by positivity
  constructor <;> linarith

theorem linspaceValues_length (start stop step : ℚ) (h : start < stop)
    (hs : 0 < step) :
    (stop - start) / step ≤ ((linspaceValues start stop step).length : ℚ) ∧
      ((linspaceValues start stop step).length : ℚ) ≤
        (stop - start) / step + 1 := by
  have hnn : (0 : ℤ) ≤ ⌈(stop - start) / step⌉ :=
    Int.ceil_nonneg (le_of_lt (div_pos (sub_pos.mpr h) hs))
  have hlen : ((linspaceValues start stop step).length : ℚ) =
      ((⌈(stop - start) / step⌉ : ℤ) : ℚ) := by
    rw [linspaceValues, List.length_map, List.length_range, linspaceCount,
      if_pos ⟨h, hs⟩]
    exact_mod_cast congrArg (fun z : ℤ => (z : ℚ))
      (Int.toNat_of_nonneg hnn)
  rw [hlen]
  refine ⟨Int.le_ceil _, ?_⟩
  have := Int.ceil_lt_add_one ((stop - start) / step)
  linarith

theorem sharesDrawn_eq (r : RenderRequest) :
    pointsWithColor Color.red (chartOutput r) =
      r.shares_x.map (fun x => (x, r.polynomial x)) := by
  cases hb : r.secret <;>
    simp [pointsWithColor, chartOutput, draw_polynomial, draw_shares,
      draw_secret, hb]

/-- C1: for every render request, every share point drawn by `draw_shares`
(the red point series) is the pair `(x, polynomial x)`: the drawn
x-coordinates are exactly `shares_x`, and each drawn y-coordinate equals
the polynomial evaluated at the point's x-coordinate, in particular it
matches it within the 1e-5 tolerance. -/
theorem shares_points_on_polynomial_c1 (r : RenderRequest) :
    (pointsWithColor Color.red (chartOutput r)).map Prod.fst = r.shares_x ∧
    ∀ p ∈ pointsWithColor Color.red (chartOutput r),
      p.2 = r.polynomial p.1 ∧ |p.2 - r.polynomial p.1| ≤ 1 / 100000 := by
  rw [sharesDrawn_eq]
  constructor
  · simp [Function.comp_def]
  · intro p hp
    rw [List.mem_map] at hp
    obtain ⟨x, _, rfl⟩ := hp
    refine ⟨rfl, ?_⟩
    simp only [sub_self, abs_zero]
    norm_num

theorem shares_points_on_polynomial_c1_witness :
    ((3 : ℚ), (3 : ℚ)) ∈ pointsWithColor Color.red (chartOutput lineRequest) ∧
    (pointsWithColor Color.red (chartOutput lineRequest)).map Prod.fst =
      lineRequest.shares_x ∧
    ((3 : ℚ), (3 : ℚ)).2 = lineRequest.polynomial ((3 : ℚ), (3 : ℚ)).1 ∧
    |((3 : ℚ), (3 : ℚ)).2 - lineRequest.polynomial ((3 : ℚ), (3 : ℚ)).1| ≤
      1 / 100000 :=
  ⟨by decide, (shares_points_on_polynomial_c1 lineRequest).1,
   ((shares_points_on_polynomial_c1 lineRequest).2 ((3 : ℚ), (3 : ℚ))
      (by decide)).1,
   ((shares_points_on_polynomial_c1 lineRequest).2 ((3 : ℚ), (3 : ℚ))
      (by decide)).2⟩

/-- C2: for every render request, the green secret point series is drawn
if and only if the `secret` flag is set; when drawn it is the single point
`(0, polynomial 0)` — always at x = 0, regardless of `shares_x` — as a
size-5 filled point with the same text offset as a share point, and the
legend entry "Secret" (green glyph) is registered exactly when the flag is
set. -/
theorem secret_point_c2 (r : RenderRequest) :
    (pointsWithColor Color.green (chartOutput r) =
      if r.secret then [((0 : ℚ), r.polynomial 0)] else []) ∧
    (LegendEntry.mk "Secret" Color.green ∈ (chartOutput r).series_labels ↔
      r.secret = true) ∧
    (r.secret = true →
      DrawEvent.pointSeries [((0 : ℚ), r.polynomial 0)] 5 Color.green true
        (1, 10) ∈ (chartOutput r).events) := by
  cases hb : r.secret <;>
    simp [pointsWithColor, chartOutput, draw_polynomial, draw_shares,
      draw_secret, hb]

theorem secret_point_c2_witness :
    shamirRequest.secret = true ∧
    pointsWithColor Color.green (chartOutput shamirRequest) =
      [((0 : ℚ), shamirRequest.polynomial 0)] ∧
    LegendEntry.mk "Secret" Color.green ∈
      (chartOutput shamirRequest).series_labels ∧
    DrawEvent.pointSeries [((0 : ℚ), shamirRequest.polynomial 0)] 5
      Color.green true (1, 10) ∈ (chartOutput shamirRequest).events :=
  ⟨rfl, (secret_point_c2 shamirRequest).1,
   (secret_point_c2 shamirRequest).2.1.mpr rfl,
   (secret_point_c2 shamirRequest).2.2 rfl⟩

/-- C5: for every render request, the axis mesh is configured and drawn
exactly once, with gridlines disabled, 5 y-axis tick labels, both tick
formatters printing zero decimal places, and an x-axis tick-label count of
`shares_x.length` plus one more when the secret point is shown. -/
theorem mesh_configuration_c5 (r : RenderRequest) :
    meshConfigs (chartOutput r) =
      [(r.shares_x.length + (if r.secret then 1 else 0), 5, true, 0, 0)] := by
  cases hb : r.secret <;>
    simp [meshConfigs, chartOutput, draw_polynomial, draw_shares,
      draw_secret, hb]

/-- C6: a render request whose x-range is degenerate (start = end) fails:
`create_chart` propagates the coordinate-system construction error instead
of rendering a chart. -/
theorem degenerate_range_fails_c6 (r : RenderRequest)
    (h : r.x_range.1 = r.x_range.2) :
    create_chart r = Except.error ChartError.degenerateRange := by
  simp [create_chart, build_cartesian_2d, h]

theorem degenerate_range_fails_c6_witness :
    degenerateRequest.x_range.1 = degenerateRequest.x_range.2 ∧
    create_chart degenerateRequest =
      Except.error ChartError.degenerateRange :=
  ⟨rfl, degenerate_range_fails_c6 degenerateRequest rfl⟩

/-- C3 counterexample: on a request with an empty sample set the claimed
legend-entry count `1 + (1 if sample set non-empty) + (1 if secret)` is
wrong: `draw_shares` registers the "Shares" label unconditionally, so two
entries are drawn where the claim predicts one. -/
theorem legend_count_c3_counterexample :
    ¬ ((drawnLegendEntries (chartOutput emptySharesRequest)).length =
        1 + (if emptySharesRequest.shares_x.isEmpty then 0 else 1) +
          (if emptySharesRequest.secret then 1 else 0)) := by
  decide

/-- C3 amended: for every render request whose curve label is non-empty,
the number of drawn legend entries is `2 + (1 if secret)`: the curve entry
and the "Shares" entry — the latter registered even when `shares_x` is
empty — plus the "Secret" entry when the flag is set.  A request with an
empty sample set still succeeds (for non-degenerate ranges) and draws no
sample-point glyphs, but the "Shares" legend entry is not omitted. -/
theorem legend_count_amended_c3 (r : RenderRequest)
    (hstr : r.polynomial_str ≠ "") :
    (drawnLegendEntries (chartOutput r)).length =
      2 + (if r.secret then 1 else 0) ∧
    (r.shares_x = [] → pointsWithColor Color.red (chartOutput r) = []) ∧
    (r.x_range.1 ≠ r.x_range.2 → r.y_range.1 ≠ r.y_range.2 →
      create_chart r = Except.ok (chartOutput r)) := by
  refine ⟨?_, ?_, ?_⟩
  · cases hb : r.secret <;>
      simp [drawnLegendEntries, chartOutput, draw_polynomial, draw_shares,
        draw_secret, hb, hstr]
  · intro hempty
    rw [sharesDrawn_eq, hempty]
    rfl
  · intro hx hy
    simp [create_chart, build_cartesian_2d, hx, hy]

theorem legend_count_amended_c3_witness :
    emptySharesRequest.polynomial_str ≠ "" ∧
    ((drawnLegendEntries (chartOutput emptySharesRequest)).length =
        2 + (if emptySharesRequest.secret then 1 else 0) ∧
      (emptySharesRequest.shares_x = [] →
        pointsWithColor Color.red (chartOutput emptySharesRequest) = []) ∧
      (emptySharesRequest.x_range.1 ≠ emptySharesRequest.x_range.2 →
        emptySharesRequest.y_range.1 ≠ emptySharesRequest.y_range.2 →
        create_chart emptySharesRequest =
          Except.ok (chartOutput emptySharesRequest))) :=
  ⟨by decide, legend_count_amended_c3 emptySharesRequest (by decide)⟩

/-- C4: for every render request with a non-degenerate, increasing
x-range, the curve is a single blue line series whose points sample the
polynomial at uniform steps of 1e-3: the x-coordinates start at the range
start, are strictly increasing, stay inside the range, carry y = f(x), and
their number lies between (range width) / 1e-3 and (range width) / 1e-3
plus one. -/
theorem curve_sampling_c4 (r : RenderRequest)
    (h : r.x_range.1 < r.x_range.2) :
    blueLinePointLists (chartOutput r) =
      [(linspaceValues r.x_range.1 r.x_range.2 (1 / 1000)).map
        (fun x => (x, r.polynomial x))] ∧
    (curvePointsDrawn (chartOutput r)).head? =
      some (r.x_range.1, r.polynomial r.x_range.1) ∧
    ((curvePointsDrawn (chartOutput r)).map Prod.fst).Chain' (· < ·) ∧
    (∀ p ∈ curvePointsDrawn (chartOutput r),
      r.x_range.1 ≤ p.1 ∧ p.1 ≤ r.x_range.2 ∧ p.2 = r.polynomial p.1) ∧
    (r.x_range.2 - r.x_range.1) * 1000 ≤
      ((curvePointsDrawn (chartOutput r)).length : ℚ) ∧
    ((curvePointsDrawn (chartOutput r)).length : ℚ) ≤
      (r.x_range.2 - r.x_range.1) * 1000 + 1 := by
  have hs : (0 : ℚ) < 1 / 1000 := by norm_num
  have hone : blueLinePointLists (chartOutput r) =
      [(linspaceValues r.x_range.1 r.x_range.2 (1 / 1000)).map
        (fun x => (x, r.polynomial x))] := by
    cases hb : r.secret <;>
      simp [blueLinePointLists, chartOutput, draw_polynomial, draw_shares,
        draw_secret, hb]
  have hcurve : curvePointsDrawn (chartOutput r) =
      (linspaceValues r.x_range.1 r.x_range.2 (1 / 1000)).map
        (fun x => (x, r.polynomial x)) := by
    rw [curvePointsDrawn, hone]
    simp
  have hdiv : (r.x_range.2 - r.x_range.1) / (1 / 1000) =
      (r.x_range.2 - r.x_range.1) * 1000 := by
    rw [one_div, div_eq_mul_inv, inv_inv]
  refine ⟨hone, ?_, ?_, ?_, ?_, ?_⟩
  · rw [hcurve, List.head?_map,
      linspaceValues_head r.x_range.1 r.x_range.2 (1 / 1000) h hs]
    rfl
  · rw [hcurve, List.map_map]
    have : (Prod.fst ∘ fun x => (x, r.polynomial x)) = fun x : ℚ => x := rfl
    rw [this, List.map_id']
    exact linspaceValues_chain r.x_range.1 r.x_range.2 (1 / 1000) hs
  · intro p hp
    rw [hcurve, List.mem_map] at hp
    obtain ⟨x, hx, rfl⟩ := hp
    obtain ⟨h1, h2⟩ :=
      linspaceValues_mem_bounds r.x_range.1 r.x_range.2 (1 / 1000) h hs x hx
    exact ⟨h1, le_of_lt h2, rfl⟩
  · have := (linspaceValues_length r.x_range.1 r.x_range.2 (1 / 1000) h hs).1
    rw [hdiv] at this
    rw [hcurve, List.length_map]
    exact this
  · have := (linspaceValues_length r.x_range.1 r.x_range.2 (1 / 1000) h hs).2
    rw [hdiv] at this
    rw [hcurve, List.length_map]
    exact this

theorem curve_sampling_c4_witness :
    emptySharesRequest.x_range.1 < emptySharesRequest.x_range.2 ∧
    (blueLinePointLists (chartOutput emptySharesRequest) =
      [(linspaceValues emptySharesRequest.x_range.1
          emptySharesRequest.x_range.2 (1 / 1000)).map
        (fun x => (x, emptySharesRequest.polynomial x))] ∧
    (curvePointsDrawn (chartOutput emptySharesRequest)).head? =
      some (emptySharesRequest.x_range.1,
        emptySharesRequest.polynomial emptySharesRequest.x_range.1) ∧
    ((curvePointsDrawn (chartOutput emptySharesRequest)).map
      Prod.fst).Chain' (· < ·) ∧
    (∀ p ∈ curvePointsDrawn (chartOutput emptySharesRequest),
      emptySharesRequest.x_range.1 ≤ p.1 ∧
        p.1 ≤ emptySharesRequest.x_range.2 ∧
        p.2 = emptySharesRequest.polynomial p.1) ∧
    (emptySharesRequest.x_range.2 - emptySharesRequest.x_range.1) * 1000 ≤
      ((curvePointsDrawn (chartOutput emptySharesRequest)).length : ℚ) ∧
    ((curvePointsDrawn (chartOutput emptySharesRequest)).length : ℚ) ≤
      (emptySharesRequest.x_range.2 - emptySharesRequest.x_range.1) * 1000
        + 1) :=
  ⟨zero_lt_one, curve_sampling_c4 emptySharesRequest zero_lt_one⟩

/-- C7: rendering is deterministic — two `create_chart` invocations whose
title, dimensions, ranges, function, labels, sample set, and secret flag
agree produce identical output documents, regardless of their output
destinations; nothing else (randomness, timestamps) influences the
output. -/
theorem deterministic_render_c7 (r1 r2 : RenderRequest)
    (htitle : r1.title = r2.title) (hdim : r1.dimensions = r2.dimensions)
    (hx : r1.x_range = r2.x_range) (hy : r1.y_range = r2.y_range)
    (hf : r1.polynomial = r2.polynomial)
    (hstr : r1.polynomial_str = r2.polynomial_str)
    (hshares : r1.shares_x = r2.shares_x) (hsec : r1.secret = r2.secret) :
    create_chart r1 = create_chart r2 := by
  cases r1
  cases r2
  dsimp at htitle hdim hx hy hf hstr hshares hsec
  subst htitle hdim hx hy hf hstr hshares hsec
  rfl

theorem deterministic_render_c7_witness :
    lineRequest.title = lineRequestCopy.title ∧
    lineRequest.dimensions = lineRequestCopy.dimensions ∧
    lineRequest.x_range = lineRequestCopy.x_range ∧
    lineRequest.y_range = lineRequestCopy.y_range ∧
    lineRequest.polynomial = lineRequestCopy.polynomial ∧
    lineRequest.polynomial_str = lineRequestCopy.polynomial_str ∧
    lineRequest.shares_x = lineRequestCopy.shares_x ∧
    lineRequest.secret = lineRequestCopy.secret ∧
    create_chart lineRequest = create_chart lineRequestCopy :=
  ⟨rfl, rfl, rfl, rfl, rfl, rfl, rfl, rfl,
   deterministic_render_c7 lineRequest lineRequestCopy rfl rfl rfl rfl rfl
     rfl rfl rfl⟩

theorem runSeq_first_error {ε : Type} (steps : List (Except ε Unit))
    (i : ℕ) (e : ε) (hi : steps[i]? = some (Except.error e))
    (hprev : ∀ j, j < i → steps[j]? = some (Except.ok ())) :
    runSeq steps = Except.error e ∧ executedSteps steps = i + 1 := by
  induction steps generalizing i with
  | nil => simp at hi
  | cons s rest ih =>
    cases i with
    | zero =>
      simp at hi
      subst hi
      exact ⟨rfl, rfl⟩
    | succ n =>
      have h0 := hprev 0 (Nat.succ_pos n)
      simp at h0
      subst h0
      have hi2 : rest[n]? = some (Except.error e) := by simpa using hi
      have hprev2 : ∀ j, j < n → rest[j]? = some (Except.ok ()) := by
        intro j hj
        have := hprev (j + 1) (Nat.succ_lt_succ hj)
        simpa using this
      obtain ⟨hr, hc⟩ := ih n hi2 hprev2
      refine ⟨hr, ?_⟩
      simp [executedSteps, hc]
      omega

/-- C8: in the `?`-chains of the program, the first step that fails aborts
the rest and surfaces its error.  At the top level, if the i-th of the six
figure renders of `main` is the first to fail, `main` returns that error
and exactly i+1 figure renders execute (none after the failing one); inside
one `create_chart`, if the i-th pipeline step is the first to fail, the
render returns that error and exactly i+1 steps execute — no cleanup or
recovery step runs. -/
theorem error_propagation_c8 {ε : Type} :
    (∀ (l q c s a1 a2 : Except ε Unit) (i : ℕ) (e : ε),
      (mainSteps l q c s a1 a2)[i]? = some (Except.error e) →
      (∀ j, j < i → (mainSteps l q c s a1 a2)[j]? = some (Except.ok ())) →
      main_run l q c s a1 a2 = Except.error e ∧
        executedSteps (mainSteps l q c s a1 a2) = i + 1) ∧
    (∀ (fill build mesh vline poly shares sec legend : Except ε Unit)
        (secret : Bool) (i : ℕ) (e : ε),
      (create_chart_steps fill build mesh vline poly shares sec legend
          secret)[i]? = some (Except.error e) →
      (∀ j, j < i →
        (create_chart_steps fill build mesh vline poly shares sec legend
            secret)[j]? = some (Except.ok ())) →
      create_chart_run fill build mesh vline poly shares sec legend secret =
          Except.error e ∧
        executedSteps (create_chart_steps fill build mesh vline poly shares
          sec legend secret) = i + 1) := by
  constructor
  · intro l q c s a1 a2 i e hi hprev
    exact runSeq_first_error (mainSteps l q c s a1 a2) i e hi hprev
  · intro fill build mesh vline poly shares sec legend secret i e hi hprev
    exact runSeq_first_error
      (create_chart_steps fill build mesh vline poly shares sec legend
        secret) i e hi hprev

theorem error_propagation_c8_witness :
    main_run (Except.ok ()) (Except.ok ())
        (Except.error "cubic failed") (Except.ok ()) (Except.ok ())
        (Except.ok ()) = Except.error "cubic failed" ∧
      executedSteps (mainSteps (Except.ok ()) (Except.ok ())
        (Except.error "cubic failed") (Except.ok ()) (Except.ok ())
        (Except.ok ())) = 2 + 1 :=
  error_propagation_c8.1 (Except.ok ()) (Except.ok ())
    (Except.error "cubic failed") (Except.ok ()) (Except.ok ())
    (Except.ok ()) 2 "cubic failed" rfl
    (by
      intro j hj
      match j, hj with
      | 0, _ => rfl
      | 1, _ => rfl)

/-- C9: the program takes no runtime input: `main` performs exactly six
renders, in the order line, quadratic, cubic, shamir,
shamir_alternate_single, shamir_alternate_multiple, each with canvas
dimensions 640 by 480 and with exactly the x-range, y-range, polynomial,
sample x-coordinates, and secret flag of the spec's section 6
configuration table. -/
theorem main_configuration_c9 :
    mainRequests.map (fun r => r.filename) =
      ["plots/line.svg", "plots/quadratic.svg", "plots/cubic.svg",
       "plots/shamir.svg", "plots/shamir_alternate_single.svg",
       "plots/shamir_alternate_multiple.svg"] ∧
    mainRequests.map (fun r => r.dimensions) =
      List.replicate 6 (640, 480) ∧
    mainRequests.map (fun r => (r.x_range, r.y_range, r.shares_x, r.secret))
      = specConfigTable.map
        (fun s => (s.x_range, s.y_range, s.samples, s.show_secret)) ∧
    ∀ x : ℚ, mainRequests.map (fun r => r.polynomial x) =
      specConfigTable.map (fun s => s.f x) :=
  ⟨rfl, rfl, rfl, fun _ => rfl⟩

/-- C10: for every render request — unconditionally, also when the secret
flag is off or the sample set empty — the third drawing call (after the
background fill and the mesh) is the black vertical line from
`(0, y_range.start)` to `(0, y_range.end)`, and the curve, the sample
points, and the secret point (when shown) are all drawn at later
positions. -/
theorem vertical_line_before_data_c10 (r : RenderRequest) :
    (chartOutput r).events[2]? =
      some (DrawEvent.lineSeries [(0, r.y_range.1), (0, r.y_range.2)]
        Color.black) ∧
    (chartOutput r).events[3]? =
      some (DrawEvent.lineSeries
        ((linspaceValues r.x_range.1 r.x_range.2 (1 / 1000)).map
          (fun x => (x, r.polynomial x))) Color.blue) ∧
    (chartOutput r).events[4]? =
      some (DrawEvent.pointSeries
        (r.shares_x.map (fun x => (x, r.polynomial x))) 5 Color.red true
        (1, 10)) ∧
    (r.secret = true →
      (chartOutput r).events[5]? =
        some (DrawEvent.pointSeries [((0 : ℚ), r.polynomial 0)] 5
          Color.green true (1, 10))) := by
  cases hb : r.secret <;>
    simp [chartOutput, draw_polynomial, draw_shares, draw_secret, hb]

theorem vertical_line_before_data_c10_witness :
    shamirRequest.secret = true ∧
    (chartOutput shamirRequest).events[2]? =
      some (DrawEvent.lineSeries
        [(0, shamirRequest.y_range.1), (0, shamirRequest.y_range.2)]
        Color.black) ∧
    (chartOutput shamirRequest).events[5]? =
      some (DrawEvent.pointSeries
        [((0 : ℚ), shamirRequest.polynomial 0)] 5 Color.green true
        (1, 10)) :=
  ⟨rfl, (vertical_line_before_data_c10 shamirRequest).1,
   (vertical_line_before_data_c10 shamirRequest).2.2.2 rfl⟩

end ShamirPlots
